import Mathlib

/-!
Verification of the GuessMaster-2025 session/game-state manager
(`game_logic.py`, class `GameManager`) against its specification.

The Python module is shallowly embedded below.  Machine-level details kept
faithful to the source:
* Python dictionaries are modelled as association lists with Python's
  update-in-place / append-on-new-key semantics (`dictGet`, `dictSet`,
  `dictPop`).
* `datetime` values are modelled as integer epoch seconds.  The expression
  `(now - start).seconds` on a Python `timedelta` yields the *seconds
  component after normalisation*, i.e. the total span modulo 86400 (floor
  convention) — modelled by `tdSeconds`.
* `threading.Lock` is non-reentrant.  Each operation threads an explicit
  `lock` flag; acquiring a held lock never completes, modelled by the
  `PyResult.blocked` outcome.
* `random.randint(a, b)` is modelled as an oracle argument `target`
  constrained to `a ≤ target ≤ b` wherever traces are formed.
* Score files are modelled as in-state tables; a write failure of the
  environment is modelled by a boolean `fsOk` argument to the operations
  that write (the atomic temp-file-then-replace write leaves the durable
  table unchanged on failure).
-/

namespace GuessMaster

/-- A Python value arriving as a guess or target number: an `int`, or some
non-integer value (any other JSON payload). -/
inductive PyVal where
  | int (n : Int)
  | nonInt
deriving DecidableEq

/-- Python exceptions raised by the embedded code. -/
inductive PyErr where
  | gameError (msg : String)
  | typeError (msg : String)
  | keyError (msg : String)
deriving DecidableEq

/-- Python `str(e)` of an exception. -/
def PyErr.str : PyErr → String
  | .gameError m => m
  | .typeError m => m
  | .keyError m => m

/-- Result of calling an embedded operation: normal return, a raised
exception, or blocking forever on acquiring a held non-reentrant lock. -/
inductive PyResult (α : Type) where
  | ok (val : α)
  | err (e : PyErr)
  | blocked
deriving DecidableEq

/-- True iff the call raised an exception. -/
def PyResult.isErr {α : Type} : PyResult α → Bool
  | .err _ => true
  | _ => false

/-- Lookup in a Python dict modelled as an association list
(first matching key). -/
def dictGet {α : Type} : List (String × α) → String → Option α
  | [], _ => none
  | p :: rest, k => if p.1 = k then some p.2 else dictGet rest k

/-- Python dict assignment `d[k] = v`: update in place when the key is
present, append otherwise. -/
def dictSet {α : Type} : List (String × α) → String → α → List (String × α)
  | [], k, v => [(k, v)]
  | p :: rest, k, v => if p.1 = k then (k, v) :: rest else p :: dictSet rest k v

/-- Python `d.pop(k, None)`: remove the key when present. -/
def dictPop {α : Type} (l : List (String × α)) (k : String) : List (String × α) :=
  l.filter (fun p => p.1 ≠ k)

/-- The `seconds` attribute of a Python `timedelta` spanning `t` whole
seconds: after normalisation it is the span modulo 86400 (floor division
convention, as in Python). -/
def tdSeconds (t : Int) : Int := t % 86400

/-- Python `str` of an `int`-or-`None` value (as interpolated into
f-strings by the source). -/
def pyStr : Option Int → String
  | some n => toString n
  | none => "None"

/-- Python `guess == game['target']` where the target may be `None`:
comparing an int with `None` is simply `False`. -/
def pyEqTarget (g : Int) (t : Option Int) : Bool :=
  match t with
  | some v => g == v
  | none => false

/-- One session dictionary of `active_games` (`game_logic.py`).  Keys that a
mode never stores are modelled as `none` defaults. -/
structure Game where
  mode : String
  target : Option Int := none
  attempts : Nat := 0
  max_attempts : Nat
  range : Int × Int
  difficulty : Option String := none
  status : Option String := none
  start_time : Int
  current_round : Option Nat := none
  player1 : Option String := none
  player2 : Option String := none
  scores : List (String × Int) := []
deriving DecidableEq

/-- The mutable state of a `GameManager` instance: the session table, the
process-wide non-reentrant lock, the two durable score tables, and whether
the periodic cleanup timer is armed. -/
structure GMState where
  active_games : List (String × Game)
  lock : Bool
  single_scores : List (String × Int)
  multi_scores : List (String × Int)
  timerArmed : Bool
deriving DecidableEq

/-- `GameManager.__init__`: empty session table, lock free, score files
initialised to empty tables, cleanup timer started. -/
def initState : GMState :=
  { active_games := [], lock := false, single_scores := [], multi_scores := [],
    timerArmed := true }

/-- `self.SESSION_TIMEOUT = 30 * 60` (seconds). -/
def SESSION_TIMEOUT : Int := 30 * 60

/-- `self.MAX_ATTEMPTS = {'single': 6, 'multi': 8}`. -/
def MAX_ATTEMPTS (mode : String) : Nat :=
  if mode = "single" then 6 else 8

/-- `self.RANGES = {'easy': (1, 50), 'medium': (1, 100), 'hard': (1, 500)}`. -/
def RANGES (difficulty : String) : Option (Int × Int) :=
  if difficulty = "easy" then some (1, 50)
  else if difficulty = "medium" then some (1, 100)
  else if difficulty = "hard" then some (1, 500)
  else none

/-- Abstract message `str(e)` of the environmental I/O exception raised when
a score-file write fails (its exact text depends on the machine). -/
def ioErrorMsg : String := "disk write failure"

/-- `GameManager.end_game`: acquires the lock, removes the session when
present (absent id is a no-op), releases the lock. -/
def end_game (s : GMState) (game_id : String) : PyResult Unit × GMState :=
  if s.lock then (.blocked, s)
  else (.ok (), { s with active_games := dictPop s.active_games game_id })

/-- `GameManager._validate_game_id`. -/
def validate_game_id (s : GMState) (game_id : String) : PyResult Unit :=
  match dictGet s.active_games game_id with
  | some _ => .ok ()
  | none => .err (.gameError "Invalid or expired game session")

/-- `GameManager._validate_number_range`: raises unless the value is an
integer within the inclusive bounds; in the embedding the validated integer
is returned. -/
def validate_number_range (number : PyVal) (range_min range_max : Int) :
    PyResult Int :=
  match number with
  | .nonInt => .err (.gameError s!"Number must be between {range_min} and {range_max}")
  | .int n =>
    if n < range_min ∨ n > range_max then
      .err (.gameError s!"Number must be between {range_min} and {range_max}")
    else .ok n

/-- `GameManager._validate_game_session`: empty id, unknown id, then the
timeout check `(datetime.now() - start_time).seconds > SESSION_TIMEOUT`,
which removes the stale session via `end_game` before raising. -/
def validate_game_session (s : GMState) (game_id : String) (now : Int) :
    PyResult Game × GMState :=
  if game_id = "" then (.err (.gameError "No active game session"), s)
  else
    match dictGet s.active_games game_id with
    | none => (.err (.gameError "Game session expired or invalid"), s)
    | some game =>
      if tdSeconds (now - game.start_time) > SESSION_TIMEOUT then
        match end_game s game_id with
        | (.blocked, s1) => (.blocked, s1)
        | (_, s1) => (.err (.gameError "Game session has expired"), s1)
      else (.ok game, s)

/-- `GameManager._validate_custom_range` (arguments already parsed as
integers by the front end). -/
def validate_custom_range (range_min range_max : Int) : PyResult Unit :=
  if range_min < 1 then .err (.gameError "Minimum value must be at least 1")
  else if range_max ≤ range_min then
    .err (.gameError "Maximum value must be greater than minimum value")
  else if range_max > 1000000 then
    .err (.gameError "Maximum value cannot exceed 1,000,000")
  else .ok ()

/-- Range resolution at the top of `GameManager.start_singleplayer`: custom
ranges are validated, named difficulties are looked up in `RANGES`. -/
def resolve_range (difficulty : String) (custom_range : Option (Int × Int)) :
    PyResult (Int × Int) :=
  if difficulty = "custom" then
    match custom_range with
    | none => .err (.gameError "Invalid custom range format")
    | some (range_min, range_max) =>
      match validate_custom_range range_min range_max with
      | .err e => .err e
      | _ => .ok (range_min, range_max)
  else
    match RANGES difficulty with
    | some r => .ok r
    | none => .err (.gameError s!"Invalid difficulty level: {difficulty}")

/-- Result of `start_singleplayer` / `start_multiplayer`. -/
structure StartInfo where
  game_id : String
  range : Int × Int
  max_attempts : Nat
deriving DecidableEq

/-- `GameManager.start_singleplayer`.  `game_id` stands for the fresh
`uuid4` and `target` for the `random.randint(range_min, range_max)` draw;
`now` is `datetime.now()`.  The session is inserted under the lock and the
whole body is wrapped by the `except` clause re-raising a `GameError`. -/
def start_singleplayer (s : GMState) (difficulty : String)
    (custom_range : Option (Int × Int)) (game_id : String) (target : Int)
    (now : Int) : PyResult StartInfo × GMState :=
  let body : PyResult StartInfo × GMState :=
    match resolve_range difficulty custom_range with
    | .err e => (.err e, s)
    | .blocked => (.blocked, s)
    | .ok (range_min, range_max) =>
      if s.lock then (.blocked, s)
      else
        let game : Game :=
          { mode := "single", target := some target, attempts := 0,
            max_attempts := MAX_ATTEMPTS "single",
            range := (range_min, range_max), difficulty := some difficulty,
            start_time := now }
        (.ok { game_id := game_id, range := (range_min, range_max),
               max_attempts := MAX_ATTEMPTS "single" },
         { s with active_games := dictSet s.active_games game_id game })
  match body with
  | (.err e, s1) => (.err (.gameError ("Failed to start game: " ++ e.str)), s1)
  | other => other

/-- `GameManager.start_multiplayer`. -/
def start_multiplayer (s : GMState) (player1 player2 : String)
    (game_id : String) (now : Int) : PyResult StartInfo × GMState :=
  if player1 = "" ∨ player2 = "" then
    (.err (.gameError "Both player names are required"), s)
  else if player1 = player2 then
    (.err (.gameError "Players must have different names"), s)
  else
    let game : Game :=
      { mode := "multi", current_round := some 1, player1 := some player1,
        player2 := some player2, scores := [(player1, 0), (player2, 0)],
        attempts := 0, max_attempts := MAX_ATTEMPTS "multi",
        status := some "waiting_for_number", range := (1, 100),
        start_time := now, target := none }
    if s.lock then (.blocked, s)
    else
      (.ok { game_id := game_id, range := (1, 100),
             max_attempts := MAX_ATTEMPTS "multi" },
       { s with active_games := dictSet s.active_games game_id game })

/-- `GameManager.set_target_number`: id check, phase check, range check,
then target stored, status advanced, attempts reset.  No lock is taken. -/
def set_target_number (s : GMState) (game_id : String) (number : PyVal) :
    PyResult Unit × GMState :=
  match validate_game_id s game_id with
  | .err e => (.err e, s)
  | _ =>
    match dictGet s.active_games game_id with
    | none => (.err (.gameError "Invalid or expired game session"), s)
    | some game =>
      match game.status with
      | none => (.err (.keyError "status"), s)
      | some st =>
        if st ≠ "waiting_for_number" then
          (.err (.gameError "Cannot set target number at this time"), s)
        else
          match validate_number_range number game.range.1 game.range.2 with
          | .err e => (.err e, s)
          | .blocked => (.blocked, s)
          | .ok n =>
            let game1 :=
              { game with target := some n, status := some "in_progress",
                          attempts := 0 }
            (.ok (), { s with active_games := dictSet s.active_games game_id game1 })

/-- `GameManager._save_score`: under the lock, read the mode's table, keep
the minimum for single mode / overwrite for multi mode, then write with an
atomic temp-file replace.  A failing write (`fsOk = false`) leaves the
durable table unchanged and re-raises as a `GameError`. -/
def save_score (s : GMState) (mode identifier : String) (score_data : Int)
    (fsOk : Bool) : PyResult Unit × GMState :=
  if s.lock then (.blocked, s)
  else
    let scores := if mode = "single" then s.single_scores else s.multi_scores
    let scores1 :=
      if mode = "single" then
        match dictGet scores identifier with
        | none => dictSet scores identifier score_data
        | some old =>
          if score_data < old then dictSet scores identifier score_data
          else scores
      else dictSet scores identifier score_data
    if fsOk then
      (.ok (),
       if mode = "single" then { s with single_scores := scores1 }
       else { s with multi_scores := scores1 })
    else (.err (.gameError ("Failed to save score: " ++ ioErrorMsg)), s)

/-- `GameManager._handle_win`: single mode persists
`(difficulty, attempts)` via `_save_score` (which may raise), then the win
dictionary is built. -/
def handle_win (s : GMState) (game : Game) (fsOk : Bool) :
    PyResult (Nat × String) × GMState :=
  if game.mode = "single" then
    match game.difficulty with
    | none => (.err (.keyError "difficulty"), s)
    | some d =>
      match save_score s "single" d (game.attempts : Int) fsOk with
      | (.ok _, s1) =>
        (.ok (game.attempts, "Correct! The number was " ++ pyStr game.target), s1)
      | (.err e, s1) => (.err e, s1)
      | (.blocked, s1) => (.blocked, s1)
  else
    (.ok (game.attempts, "Correct! The number was " ++ pyStr game.target), s)

/-- Outcome dictionary returned by `process_guess`. -/
inductive Outcome where
  | win (attempts : Nat) (message : String)
  | lose (target : Option Int) (message : String)
  | cont (hint : String) (attempts : Nat) (remaining : Nat)
deriving DecidableEq

/-- True iff the result is a win outcome. -/
def isWin : PyResult Outcome → Bool
  | .ok (.win _ _) => true
  | _ => false

/-- `GameManager._handle_loss`. -/
def handle_loss (game : Game) : Outcome :=
  .lose game.target ("Game Over! The number was " ++ pyStr game.target)

/-- `GameManager._handle_continue`: `'lower' if guess > game['target'] else
'higher'`; comparing an int with `None` raises a `TypeError`. -/
def handle_continue (game : Game) (guess : Int) : PyResult Outcome :=
  match game.target with
  | none => .err (.typeError "not supported between instances of int and NoneType")
  | some t =>
    .ok (.cont (if guess > t then "lower" else "higher") game.attempts
          (game.max_attempts - game.attempts))

/-- Body of `GameManager.process_guess` (inside the `try`): session
validation, guess validation, `attempts += 1` (an in-place mutation of the
session dictionary), then win / lose / continue in that order, with the
session popped after win or lose. -/
def process_guess_body (s : GMState) (game_id : String) (guess : PyVal)
    (now : Int) (fsOk : Bool) : PyResult Outcome × GMState :=
  match validate_game_session s game_id now with
  | (.err e, s1) => (.err e, s1)
  | (.blocked, s1) => (.blocked, s1)
  | (.ok game, s1) =>
    match guess with
    | .nonInt => (.err (.gameError "Guess must be an integer"), s1)
    | .int g =>
      if g < game.range.1 ∨ g > game.range.2 then
        (.err (.gameError "Guess must be between given range bounds"), s1)
      else
        let game1 := { game with attempts := game.attempts + 1 }
        let s2 := { s1 with active_games := dictSet s1.active_games game_id game1 }
        if pyEqTarget g game1.target then
          match handle_win s2 game1 fsOk with
          | (.ok r, s3) =>
            (.ok (.win r.1 r.2),
             { s3 with active_games := dictPop s3.active_games game_id })
          | (.err e, s3) => (.err e, s3)
          | (.blocked, s3) => (.blocked, s3)
        else if game1.max_attempts ≤ game1.attempts then
          (.ok (handle_loss game1),
           { s2 with active_games := dictPop s2.active_games game_id })
        else
          match handle_continue game1 g with
          | .ok r => (.ok r, s2)
          | .err e => (.err e, s2)
          | .blocked => (.blocked, s2)

/-- `GameManager.process_guess`: the body wrapped by the `except` clause
that re-raises any exception as `GameError("Failed to process guess: ...")`
without undoing state mutations made so far. -/
def process_guess (s : GMState) (game_id : String) (guess : PyVal)
    (now : Int) (fsOk : Bool) : PyResult Outcome × GMState :=
  match process_guess_body s game_id guess now fsOk with
  | (.err e, s1) => (.err (.gameError ("Failed to process guess: " ++ e.str)), s1)
  | other => other

/-- Interior loop of `GameManager._cleanup_expired_sessions`: each expired
id is passed to `end_game` inside a `try` that logs and continues on an
exception; blocking on the lock is not an exception and stops the loop
forever. -/
def cleanup_loop (s : GMState) : List String → PyResult Unit × GMState
  | [] => (.ok (), s)
  | gid :: rest =>
    match end_game s gid with
    | (.blocked, s1) => (.blocked, s1)
    | (_, s1) => cleanup_loop s1 rest

/-- `GameManager._cleanup_expired_sessions`: under the lock, collect the
ids whose `(now - start_time).seconds` exceeds the timeout and end each;
afterwards (outside the lock) re-arm the 300-second timer.  Note that
`end_game` re-acquires the non-reentrant lock already held here. -/
def cleanup_expired_sessions (s : GMState) (now : Int) :
    PyResult Unit × GMState :=
  if s.lock then (.blocked, s)
  else
    let sL := { s with lock := true }
    let expired :=
      (sL.active_games.filter
        (fun p => tdSeconds (now - p.2.start_time) > SESSION_TIMEOUT)).map Prod.fst
    match cleanup_loop sL expired with
    | (.blocked, s1) => (.blocked, s1)
    | (_, s1) => (.ok (), { s1 with lock := false, timerArmed := true })

/-! ### Specification-level predicates and the operation trace relation -/

/-- The per-session invariant stated by the spec: the attempt counter never
exceeds the budget, and the target, when set, lies within the inclusive
range. -/
def GameWF (g : Game) : Prop :=
  g.attempts ≤ g.max_attempts ∧
    ∀ t, g.target = some t → g.range.1 ≤ t ∧ t ≤ g.range.2

/-- Auxiliary strengthening used in the induction: every single-mode
session carries its difficulty label. -/
def GameAux (g : Game) : Prop :=
  g.mode = "single" → g.difficulty.isSome = true

/-- The spec's registry invariant: every live session is well formed. -/
def StateWF (s : GMState) : Prop :=
  ∀ gid g, dictGet s.active_games gid = some g → GameWF g

/-- Inductive invariant: well-formedness plus the strengthening and the
fact that the lock is free between completed calls. -/
def StateInv (s : GMState) : Prop :=
  (∀ gid g, dictGet s.active_games gid = some g → GameWF g ∧ GameAux g) ∧
    s.lock = false

/-- One completed top-level call of a registry operation.  `game_id` stands
in for the fresh `uuid4`, `target` for the `random.randint` draw (hence the
in-range constraint `ht`), `now` for `datetime.now()`, and `fsOk` for
whether the environment lets a score write succeed.  A call that blocks
forever on the lock never completes, so it forms no step.  With
`allowFail = false`, score persistence succeeds on every guess. -/
inductive Step (allowFail : Bool) : GMState → GMState → Prop where
  | create_single (s : GMState) (difficulty : String)
      (custom_range : Option (Int × Int)) (game_id : String) (target now : Int)
      (ht : ∀ r, resolve_range difficulty custom_range = .ok r →
        r.1 ≤ target ∧ target ≤ r.2)
      (hnb : (start_singleplayer s difficulty custom_range game_id target now).1 ≠ .blocked) :
      Step allowFail s (start_singleplayer s difficulty custom_range game_id target now).2
  | create_multi (s : GMState) (player1 player2 game_id : String) (now : Int)
      (hnb : (start_multiplayer s player1 player2 game_id now).1 ≠ .blocked) :
      Step allowFail s (start_multiplayer s player1 player2 game_id now).2
  | set_target (s : GMState) (game_id : String) (number : PyVal)
      (hnb : (set_target_number s game_id number).1 ≠ .blocked) :
      Step allowFail s (set_target_number s game_id number).2
  | guess (s : GMState) (game_id : String) (g : PyVal) (now : Int) (fsOk : Bool)
      (hfs : allowFail = true ∨ fsOk = true)
      (hnb : (process_guess s game_id g now fsOk).1 ≠ .blocked) :
      Step allowFail s (process_guess s game_id g now fsOk).2
  | end_session (s : GMState) (game_id : String)
      (hnb : (end_game s game_id).1 ≠ .blocked) :
      Step allowFail s (end_game s game_id).2
  | sweep (s : GMState) (now : Int)
      (hnb : (cleanup_expired_sessions s now).1 ≠ .blocked) :
      Step allowFail s (cleanup_expired_sessions s now).2

/-- States reachable from a fresh `GameManager` by completed calls. -/
inductive Reachable (allowFail : Bool) : GMState → Prop where
  | init : Reachable allowFail initState
  | step {s s1 : GMState} : Reachable allowFail s → Step allowFail s s1 →
      Reachable allowFail s1

/-! ### Concrete fixtures used by the claim theorems -/

/-- A live single-mode session: target 10, difficulty easy, created at
time 0. -/
def c1Sess : Game :=
  { mode := "single", target := some 10, attempts := 0, max_attempts := 6,
    range := (1, 100), difficulty := some "easy", start_time := 0 }

/-- Registry holding only `c1Sess` under id `"g"`. -/
def c1St : GMState :=
  { active_games := [("g", c1Sess)], lock := false, single_scores := [],
    multi_scores := [], timerArmed := true }

/-- A live single-mode session created at time 0 (for the timeout claim). -/
def c2Sess : Game :=
  { mode := "single", target := some 10, attempts := 0, max_attempts := 6,
    range := (1, 100), difficulty := some "easy", start_time := 0 }

/-- Registry holding only `c2Sess` under id `"g"`. -/
def c2St : GMState :=
  { active_games := [("g", c2Sess)], lock := false, single_scores := [],
    multi_scores := [], timerArmed := true }

/-- A multiplayer session still waiting for its target. -/
def c3Sess : Game :=
  { mode := "multi", target := none, attempts := 0, max_attempts := 8,
    range := (1, 100), status := some "waiting_for_number", start_time := 0,
    current_round := some 1, player1 := some "a", player2 := some "b",
    scores := [("a", 0), ("b", 0)] }

/-- Registry holding only `c3Sess` under id `"m"`. -/
def c3St : GMState :=
  { active_games := [("m", c3Sess)], lock := false, single_scores := [],
    multi_scores := [], timerArmed := true }

/-- A live single-mode session about to be won: target 7. -/
def c4Sess : Game :=
  { mode := "single", target := some 7, attempts := 0, max_attempts := 6,
    range := (1, 100), difficulty := some "easy", start_time := 0 }

/-- Registry holding only `c4Sess` under id `"g"`. -/
def c4St : GMState :=
  { active_games := [("g", c4Sess)], lock := false, single_scores := [],
    multi_scores := [], timerArmed := true }

/-- A live single-mode session for the guess-validation claim. -/
def c5Sess : Game :=
  { mode := "single", target := some 10, attempts := 2, max_attempts := 6,
    range := (1, 100), difficulty := some "easy", start_time := 0 }

/-- Registry holding only `c5Sess` under id `"g"`. -/
def c5St : GMState :=
  { active_games := [("g", c5Sess)], lock := false, single_scores := [],
    multi_scores := [], timerArmed := true }

/-- A session created at time 0, for the sweep claim. -/
def c7Sess : Game :=
  { mode := "single", target := some 10, attempts := 0, max_attempts := 6,
    range := (1, 100), difficulty := some "easy", start_time := 0 }

/-- Registry holding only `c7Sess`, with the sweep timer having just
fired (not yet re-armed). -/
def c7St : GMState :=
  { active_games := [("g", c7Sess)], lock := false, single_scores := [],
    multi_scores := [], timerArmed := false }

/-- A multiplayer session waiting for its target (for the set-target
claim). -/
def c8Sess : Game :=
  { mode := "multi", target := none, attempts := 3, max_attempts := 8,
    range := (1, 100), status := some "waiting_for_number", start_time := 0,
    current_round := some 1, player1 := some "a", player2 := some "b",
    scores := [("a", 0), ("b", 0)] }

/-- Registry holding only `c8Sess` under id `"m"`. -/
def c8St : GMState :=
  { active_games := [("m", c8Sess)], lock := false, single_scores := [],
    multi_scores := [], timerArmed := true }

/-- One step of the trace refuting the attempts bound: a winning guess
whose score write fails, which raises after incrementing `attempts` and
leaves the session in the registry. -/
def c9Fail (s : GMState) : GMState := (process_guess s "g" (.int 30) 0 false).2

/-- The registry right after `create_single("easy")` with session id `"g"`
and drawn target 30. -/
def c9Start : GMState := (start_singleplayer initState "easy" none "g" 30 0).2

/-- The registry after seven winning guesses whose score writes all
failed. -/
def c9State : GMState :=
  c9Fail (c9Fail (c9Fail (c9Fail (c9Fail (c9Fail (c9Fail c9Start))))))

/-- The session sitting in `c9State`: seven attempts against a budget of
six. -/
def c9Game : Game :=
  { mode := "single", target := some 30, attempts := 7, max_attempts := 6,
    range := (1, 50), difficulty := some "easy", start_time := 0 }

/-- A live single-mode session used for the locking claim. -/
def c10Sess : Game :=
  { mode := "single", target := some 10, attempts := 0, max_attempts := 6,
    range := (1, 100), difficulty := some "easy", start_time := 0 }

/-- Registry holding `c10Sess`, with the process-wide lock currently held
by another thread. -/
def c10St : GMState :=
  { active_games := [("g", c10Sess)], lock := true, single_scores := [],
    multi_scores := [], timerArmed := true }

/-- A waiting multiplayer session, for the `set_target` half of the
locking claim. -/
def c10MSess : Game :=
  { mode := "multi", target := none, attempts := 0, max_attempts := 8,
    range := (1, 100), status := some "waiting_for_number", start_time := 0,
    current_round := some 1, player1 := some "a", player2 := some "b",
    scores := [("a", 0), ("b", 0)] }

/-- Registry holding `c10MSess` under the held lock. -/
def c10MSt : GMState :=
  { active_games := [("m", c10MSess)], lock := true, single_scores := [],
    multi_scores := [], timerArmed := true }

/-! ### Dictionary lemmas -/

theorem dictGet_dictSet {α : Type} (l : List (String × α)) (k k1 : String)
    (v : α) :
    dictGet (dictSet l k v) k1 = if k = k1 then some v else dictGet l k1 := by
  induction l with
  | nil => simp [dictGet, dictSet]
  | cons p rest ih =>
    by_cases hp : p.1 = k
    · by_cases h1 : k = k1 <;> simp_all [dictGet, dictSet]
    · by_cases h1 : p.1 = k1 <;> by_cases h2 : k = k1 <;>
        simp_all [dictGet, dictSet]

theorem dictGet_dictPop {α : Type} (l : List (String × α)) (k k1 : String) :
    dictGet (dictPop l k) k1 = if k = k1 then none else dictGet l k1 := by
  induction l with
  | nil => simp [dictGet, dictPop]
  | cons p rest ih =>
    by_cases hp : p.1 = k
    · by_cases h1 : k = k1 <;> simp_all [dictGet, dictPop]
    · by_cases h1 : p.1 = k1 <;> by_cases h2 : k = k1 <;>
        simp_all [dictGet, dictPop]

/-! ### Operation-level helper lemmas -/

theorem validate_game_session_live {s : GMState} {game_id : String}
    {now : Int} {game : Game} (hid : game_id ≠ "")
    (hget : dictGet s.active_games game_id = some game)
    (hfresh : tdSeconds (now - game.start_time) ≤ SESSION_TIMEOUT) :
    validate_game_session s game_id now = (.ok game, s) := by
  unfold validate_game_session
  rw [if_neg hid, hget]
  simp [not_lt.mpr hfresh]

theorem validate_game_session_lock (s : GMState) (game_id : String)
    (now : Int) :
    (validate_game_session s game_id now).2.lock = s.lock := by
  unfold validate_game_session end_game
  by_cases hid : game_id = ""
  · simp [hid]
  · simp only [hid, if_false]
    cases h : dictGet s.active_games game_id
    · simp
    · simp only []
      split_ifs <;> simp

theorem validate_game_session_state (s : GMState) (game_id : String)
    (now : Int) :
    (validate_game_session s game_id now).2 = s ∨
      (validate_game_session s game_id now).2 =
        { s with active_games := dictPop s.active_games game_id } := by
  unfold validate_game_session end_game
  by_cases hid : game_id = ""
  · simp [hid]
  · simp only [hid, if_false]
    cases h : dictGet s.active_games game_id
    · simp
    · simp only []
      split_ifs <;> simp

theorem handle_win_state (s : GMState) (game : Game) (fsOk : Bool) :
    (handle_win s game fsOk).2.active_games = s.active_games ∧
      (handle_win s game fsOk).2.lock = s.lock := by
  unfold handle_win save_score
  by_cases hm : game.mode = "single"
  · cases hd : game.difficulty
    · simp [hm, hd]
    · simp only [hm, hd, if_true]
      split_ifs <;> simp
  · simp [hm]

theorem handle_win_ok {s : GMState} {game : Game} (hl : s.lock = false)
    (hd : game.mode = "single" → game.difficulty.isSome = true) :
    (handle_win s game true).1 =
      .ok (game.attempts, "Correct! The number was " ++ pyStr game.target) := by
  unfold handle_win save_score
  by_cases hm : game.mode = "single"
  · obtain ⟨d, hd1⟩ := Option.isSome_iff_exists.mp (hd hm)
    simp [hm, hd1, hl]
  · simp [hm]

theorem process_guess_absent {s : GMState} {game_id : String}
    (guess : PyVal) (now : Int) (fsOk : Bool)
    (h : dictGet s.active_games game_id = none) :
    (process_guess s game_id guess now fsOk).1.isErr = true ∧
      (process_guess s game_id guess now fsOk).2 = s := by
  unfold process_guess process_guess_body validate_game_session
  by_cases hid : game_id = "" <;> simp [hid, h, PyResult.isErr]

theorem set_target_number_absent {s : GMState} {game_id : String}
    (number : PyVal) (h : dictGet s.active_games game_id = none) :
    (set_target_number s game_id number).1.isErr = true ∧
      (set_target_number s game_id number).2 = s := by
  unfold set_target_number validate_game_id
  simp [h, PyResult.isErr]

theorem process_guess_badguess {s : GMState} {game_id : String} {game : Game}
    {now : Int} (guess : PyVal) (fsOk : Bool) (hid : game_id ≠ "")
    (hget : dictGet s.active_games game_id = some game)
    (hfresh : tdSeconds (now - game.start_time) ≤ SESSION_TIMEOUT)
    (hbad : ∀ n, guess = PyVal.int n → n < game.range.1 ∨ n > game.range.2) :
    (∃ m, (process_guess s game_id guess now fsOk).1 = .err (.gameError m)) ∧
      (process_guess s game_id guess now fsOk).2 = s := by
  unfold process_guess process_guess_body
  rw [validate_game_session_live hid hget hfresh]
  cases guess with
  | nonInt => simp
  | int n => simp [if_pos (hbad n rfl)]

theorem process_guess_win {s : GMState} {game_id : String} {game : Game}
    {t now : Int} (hid : game_id ≠ "")
    (hget : dictGet s.active_games game_id = some game)
    (hfresh : tdSeconds (now - game.start_time) ≤ SESSION_TIMEOUT)
    (ht : game.target = some t)
    (hlo : game.range.1 ≤ t) (hhi : t ≤ game.range.2)
    (hl : s.lock = false)
    (hd : game.mode = "single" → game.difficulty.isSome = true) :
    (process_guess s game_id (.int t) now true).1 =
      .ok (.win (game.attempts + 1)
        ("Correct! The number was " ++ pyStr game.target)) ∧
      dictGet (process_guess s game_id (.int t) now true).2.active_games
        game_id = none ∧
      (process_guess s game_id (.int t) now true).2.lock = false := by
  unfold process_guess process_guess_body
  rw [validate_game_session_live hid hget hfresh]
  dsimp only
  rw [if_neg (by push_neg; exact ⟨hlo, hhi⟩)]
  have hcond : pyEqTarget t game.target = true := by simp [pyEqTarget, ht]
  rw [if_pos hcond]
  rcases hw : handle_win
      { s with active_games :=
          dictSet s.active_games game_id { game with attempts := game.attempts + 1 } }
      { game with attempts := game.attempts + 1 } true with ⟨r, s3⟩
  have hframe := handle_win_state
      { s with active_games :=
          dictSet s.active_games game_id { game with attempts := game.attempts + 1 } }
      { game with attempts := game.attempts + 1 } true
  have hok := @handle_win_ok
      { s with active_games :=
          dictSet s.active_games game_id { game with attempts := game.attempts + 1 } }
      { game with attempts := game.attempts + 1 } hl hd
  rw [hw] at hframe hok
  dsimp only at hok hframe
  subst hok
  simp [dictGet_dictPop, hframe.2, hframe.1, hl]

theorem process_guess_winfail {s : GMState} {game_id : String} {game : Game}
    {t now : Int} (hid : game_id ≠ "")
    (hget : dictGet s.active_games game_id = some game)
    (hfresh : tdSeconds (now - game.start_time) ≤ SESSION_TIMEOUT)
    (ht : game.target = some t)
    (hlo : game.range.1 ≤ t) (hhi : t ≤ game.range.2)
    (hl : s.lock = false) (hm : game.mode = "single") :
    (process_guess s game_id (.int t) now false).1.isErr = true ∧
      isWin (process_guess s game_id (.int t) now false).1 = false ∧
      dictGet (process_guess s game_id (.int t) now false).2.active_games
        game_id = some { game with attempts := game.attempts + 1 } := by
  unfold process_guess process_guess_body
  rw [validate_game_session_live hid hget hfresh]
  dsimp only
  rw [if_neg (by push_neg; exact ⟨hlo, hhi⟩)]
  have hcond : pyEqTarget t game.target = true := by simp [pyEqTarget, ht]
  rw [if_pos hcond]
  unfold handle_win save_score
  cases hdiff : game.difficulty with
  | none => simp [hm, hdiff, hl, dictGet_dictSet, PyResult.isErr, isWin]
  | some d => simp [hm, hdiff, hl, dictGet_dictSet, PyResult.isErr, isWin]

theorem process_guess_lose {s : GMState} {game_id : String} {game : Game}
    {g now : Int} (fsOk : Bool) (hid : game_id ≠ "")
    (hget : dictGet s.active_games game_id = some game)
    (hfresh : tdSeconds (now - game.start_time) ≤ SESSION_TIMEOUT)
    (hlo : game.range.1 ≤ g) (hhi : g ≤ game.range.2)
    (hne : pyEqTarget g game.target = false)
    (hmax : game.max_attempts ≤ game.attempts + 1) :
    (process_guess s game_id (.int g) now fsOk).1 =
      .ok (handle_loss { game with attempts := game.attempts + 1 }) ∧
      dictGet (process_guess s game_id (.int g) now fsOk).2.active_games
        game_id = none := by
  unfold process_guess process_guess_body
  rw [validate_game_session_live hid hget hfresh]
  dsimp only
  rw [if_neg (by push_neg; exact ⟨hlo, hhi⟩)]
  rw [if_neg (by simp [hne])]
  rw [if_pos hmax]
  simp [dictGet_dictPop]

theorem process_guess_cont {s : GMState} {game_id : String} {game : Game}
    {g t now : Int} (fsOk : Bool) (hid : game_id ≠ "")
    (hget : dictGet s.active_games game_id = some game)
    (hfresh : tdSeconds (now - game.start_time) ≤ SESSION_TIMEOUT)
    (hlo : game.range.1 ≤ g) (hhi : g ≤ game.range.2)
    (ht : game.target = some t) (hne : g ≠ t)
    (hlt : game.attempts + 1 < game.max_attempts) :
    (process_guess s game_id (.int g) now fsOk).1 =
      .ok (.cont (if g > t then "lower" else "higher") (game.attempts + 1)
        (game.max_attempts - (game.attempts + 1))) ∧
      dictGet (process_guess s game_id (.int g) now fsOk).2.active_games
        game_id = some { game with attempts := game.attempts + 1 } := by
  unfold process_guess process_guess_body
  rw [validate_game_session_live hid hget hfresh]
  dsimp only
  rw [if_neg (by push_neg; exact ⟨hlo, hhi⟩)]
  rw [if_neg (by simp [pyEqTarget, ht, hne])]
  rw [if_neg (not_le.mpr hlt)]
  unfold handle_continue
  simp [ht, dictGet_dictSet]

theorem process_guess_waiting {s : GMState} {game_id : String} {game : Game}
    {g now : Int} (fsOk : Bool) (hid : game_id ≠ "")
    (hget : dictGet s.active_games game_id = some game)
    (hfresh : tdSeconds (now - game.start_time) ≤ SESSION_TIMEOUT)
    (hlo : game.range.1 ≤ g) (hhi : g ≤ game.range.2)
    (ht : game.target = none)
    (hlt : game.attempts + 1 < game.max_attempts) :
    (process_guess s game_id (.int g) now fsOk).1.isErr = true ∧
      dictGet (process_guess s game_id (.int g) now fsOk).2.active_games
        game_id = some { game with attempts := game.attempts + 1 } := by
  unfold process_guess process_guess_body
  rw [validate_game_session_live hid hget hfresh]
  dsimp only
  rw [if_neg (by push_neg; exact ⟨hlo, hhi⟩)]
  rw [if_neg (by simp [pyEqTarget, ht])]
  rw [if_neg (not_le.mpr hlt)]
  unfold handle_continue
  simp [ht, dictGet_dictSet, PyResult.isErr]

/-! ### Invariant preservation -/

theorem dictGet_pop_sub {α : Type} {l : List (String × α)} {P : α → Prop}
    (h : ∀ k1 v, dictGet l k1 = some v → P v) (k : String) :
    ∀ k1 v, dictGet (dictPop l k) k1 = some v → P v := by
  intro k1 v hget
  rw [dictGet_dictPop] at hget
  by_cases hk : k = k1
  · rw [if_pos hk] at hget; cases hget
  · rw [if_neg hk] at hget; exact h k1 v hget

theorem dictGet_set_sub {α : Type} {l : List (String × α)} {P : α → Prop}
    (h : ∀ k1 v, dictGet l k1 = some v → P v) {k : String} {w : α}
    (hw : P w) :
    ∀ k1 v, dictGet (dictSet l k w) k1 = some v → P v := by
  intro k1 v hget
  rw [dictGet_dictSet] at hget
  by_cases hk : k = k1
  · rw [if_pos hk] at hget
    injection hget with h2
    exact h2 ▸ hw
  · rw [if_neg hk] at hget; exact h k1 v hget

theorem dictGet_pop_set_sub {α : Type} {l : List (String × α)} {P : α → Prop}
    (h : ∀ k1 v, dictGet l k1 = some v → P v) (k : String) (w : α) :
    ∀ k1 v, dictGet (dictPop (dictSet l k w) k) k1 = some v → P v := by
  intro k1 v hget
  rw [dictGet_dictPop] at hget
  by_cases hk : k = k1
  · rw [if_pos hk] at hget; cases hget
  · rw [if_neg hk, dictGet_dictSet, if_neg hk] at hget
    exact h k1 v hget

theorem validate_game_session_some {s : GMState} {game_id : String}
    {now : Int} {game : Game}
    (h : (validate_game_session s game_id now).1 = .ok game) :
    (validate_game_session s game_id now).2 = s ∧
      dictGet s.active_games game_id = some game := by
  unfold validate_game_session end_game at h ⊢
  by_cases hid : game_id = ""
  · simp [hid] at h
  · simp only [hid, if_false] at h ⊢
    cases hget : dictGet s.active_games game_id with
    | none => rw [hget] at h; simp at h
    | some game1 =>
      rw [hget] at h
      dsimp only at h ⊢
      by_cases hstale : tdSeconds (now - game1.start_time) > SESSION_TIMEOUT
      · rw [if_pos hstale] at h
        by_cases hlock : s.lock = true <;> simp [hlock] at h
      · rw [if_neg hstale] at h ⊢
        injection h with h2
        exact ⟨rfl, h2 ▸ rfl⟩

theorem stateInv_start_singleplayer {s : GMState} (h : StateInv s)
    (difficulty : String) (custom_range : Option (Int × Int))
    (game_id : String) (target now : Int)
    (ht : ∀ r, resolve_range difficulty custom_range = .ok r →
      r.1 ≤ target ∧ target ≤ r.2) :
    StateInv (start_singleplayer s difficulty custom_range game_id target now).2 := by
  unfold start_singleplayer
  cases hr : resolve_range difficulty custom_range with
  | err e => exact h
  | blocked => exact h
  | ok r =>
    obtain ⟨a, b⟩ := r
    dsimp only
    rw [if_neg (by simp [h.2])]
    refine ⟨dictGet_set_sub h.1 ⟨⟨Nat.zero_le _, ?_⟩, by simp [GameAux]⟩, h.2⟩
    intro t1 ht1
    injection ht1 with h2
    exact h2 ▸ ht (a, b) hr

theorem stateInv_start_multiplayer {s : GMState} (h : StateInv s)
    (player1 player2 game_id : String) (now : Int) :
    StateInv (start_multiplayer s player1 player2 game_id now).2 := by
  unfold start_multiplayer
  split_ifs with h1 h2 h3
  · exact h
  · exact h
  · exact h
  · refine ⟨dictGet_set_sub h.1 ⟨⟨Nat.zero_le _, by intro t ht; cases ht⟩,
      by simp [GameAux]⟩, h.2⟩

theorem stateInv_set_target {s : GMState} (h : StateInv s)
    (game_id : String) (number : PyVal) :
    StateInv (set_target_number s game_id number).2 := by
  unfold set_target_number validate_game_id
  cases hget : dictGet s.active_games game_id with
  | none => exact h
  | some game =>
    dsimp only
    cases hst : game.status with
    | none => exact h
    | some st =>
      dsimp only
      split_ifs with hwait
      · exact h
      · unfold validate_number_range
        cases number with
        | nonInt => exact h
        | int n =>
          dsimp only
          split_ifs with hrange
          · exact h
          · push_neg at hrange
            have hg := h.1 game_id game hget
            refine ⟨dictGet_set_sub h.1 ⟨⟨Nat.zero_le _, ?_⟩, hg.2⟩, h.2⟩
            intro t1 ht1
            injection ht1 with h2
            exact h2 ▸ hrange

theorem stateInv_end_game {s : GMState} (h : StateInv s) (game_id : String) :
    StateInv (end_game s game_id).2 := by
  unfold end_game
  rw [if_neg (by simp [h.2])]
  exact ⟨dictGet_pop_sub h.1 game_id, h.2⟩

theorem stateInv_cleanup {s : GMState} (h : StateInv s) (now : Int)
    (hnb : (cleanup_expired_sessions s now).1 ≠ .blocked) :
    StateInv (cleanup_expired_sessions s now).2 := by
  unfold cleanup_expired_sessions at hnb ⊢
  rw [if_neg (by simp [h.2])] at hnb ⊢
  dsimp only at hnb ⊢
  cases hexp : (s.active_games.filter
      (fun p => tdSeconds (now - p.2.start_time) > SESSION_TIMEOUT)).map Prod.fst with
  | nil =>
    simp only [cleanup_loop]
    exact ⟨h.1, rfl⟩
  | cons hd tl =>
    rw [hexp] at hnb
    simp [cleanup_loop, end_game] at hnb

theorem stateInv_process_guess {s : GMState} (h : StateInv s)
    (game_id : String) (guess : PyVal) (now : Int) :
    StateInv (process_guess s game_id guess now true).2 := by
  rcases hv : validate_game_session s game_id now with ⟨rv, s1⟩
  have hstate := validate_game_session_state s game_id now
  rw [hv] at hstate
  dsimp only at hstate
  have hInv1 : StateInv s1 := by
    rcases hstate with h1 | h1
    · exact h1 ▸ h
    · exact h1 ▸ ⟨dictGet_pop_sub h.1 game_id, h.2⟩
  unfold process_guess process_guess_body
  rw [hv]
  cases rv with
  | err e => exact hInv1
  | blocked => exact hInv1
  | ok game =>
    have hpair := validate_game_session_some
      (show (validate_game_session s game_id now).1 = .ok game by rw [hv])
    rw [hv] at hpair
    dsimp only at hpair
    obtain ⟨hs1, hget⟩ := hpair
    subst hs1
    cases guess with
    | nonInt => exact h
    | int g =>
      dsimp only
      by_cases hr : g < game.range.1 ∨ g > game.range.2
      · rw [if_pos hr]; exact h
      · rw [if_neg hr]
        have hg := h.1 game_id game hget
        by_cases he : pyEqTarget g game.target = true
        · rw [if_pos he]
          rcases hwin : handle_win
              { s1 with active_games :=
                  dictSet s1.active_games game_id { game with attempts := game.attempts + 1 } }
              { game with attempts := game.attempts + 1 } true with ⟨rw1, s3⟩
          have hfr := handle_win_state
              { s1 with active_games :=
                  dictSet s1.active_games game_id { game with attempts := game.attempts + 1 } }
              { game with attempts := game.attempts + 1 } true
          have hok := @handle_win_ok
              { s1 with active_games :=
                  dictSet s1.active_games game_id { game with attempts := game.attempts + 1 } }
              { game with attempts := game.attempts + 1 } h.2 hg.2
          rw [hwin] at hfr hok
          dsimp only at hfr hok
          subst hok
          dsimp only
          refine ⟨?_, ?_⟩
          · intro k1 v hgv
            rw [hfr.1] at hgv
            exact dictGet_pop_set_sub h.1 game_id _ k1 v hgv
          · rw [hfr.2]; exact h.2
        · rw [if_neg he]
          by_cases hmax : game.max_attempts ≤ game.attempts + 1
          · rw [if_pos hmax]
            exact ⟨dictGet_pop_set_sub h.1 game_id _, h.2⟩
          · rw [if_neg hmax]
            have hWF1 : GameWF { game with attempts := game.attempts + 1 } := by
              refine ⟨Nat.le_of_lt (not_le.mp hmax), ?_⟩
              intro t1 ht1
              exact hg.1.2 t1 ht1
            have hAux1 : GameAux { game with attempts := game.attempts + 1 } :=
              hg.2
            unfold handle_continue
            cases htar : game.target with
            | none =>
              rw [htar] at hWF1 hAux1
              exact ⟨dictGet_set_sub h.1 ⟨hWF1, hAux1⟩, h.2⟩
            | some t =>
              rw [htar] at hWF1 hAux1
              exact ⟨dictGet_set_sub h.1 ⟨hWF1, hAux1⟩, h.2⟩

theorem stateInv_init : StateInv initState := by
  refine ⟨?_, rfl⟩
  intro k v hv
  cases hv

theorem reachable_stateInv {s : GMState} (h : Reachable false s) :
    StateInv s := by
  induction h with
  | init => exact stateInv_init
  | step hr hs ih =>
    cases hs with
    | create_single d cr gid t now ht hnb =>
      exact stateInv_start_singleplayer ih d cr gid t now ht
    | create_multi p1 p2 gid now hnb =>
      exact stateInv_start_multiplayer ih p1 p2 gid now
    | set_target gid number hnb =>
      exact stateInv_set_target ih gid number
    | guess gid g now fsOk hfs hnb =>
      have hfs1 : fsOk = true := hfs.resolve_left (by simp)
      subst hfs1
      exact stateInv_process_guess ih gid g now
    | end_session gid hnb =>
      exact stateInv_end_game ih gid
    | sweep now hnb =>
      exact stateInv_cleanup ih now hnb

/-! ### Claim theorems -/

/-- C1 counterexample: after a winning guess removes the session, a further
`end_game` call naming the dead id succeeds as a no-op instead of failing,
so it is not true that every subsequent operation naming the id fails with
a session error. -/
theorem c1_end_session_not_error :
    dictGet (process_guess c1St "g" (.int 10) 0 true).2.active_games "g" =
      none ∧
    (end_game (process_guess c1St "g" (.int 10) 0 true).2 "g").1 = .ok () ∧
    (end_game (process_guess c1St "g" (.int 10) 0 true).2 "g").1.isErr =
      false := by
  decide

/-- C1 (amended): for every valid integer guess on a live session whose
target is set, and whose score write succeeds, `process_guess` returns
exactly one of win / lose / continue decided in that order (win if the
guess equals the target, else lose if the incremented attempts reach the
budget, else continue); after win or lose the session is removed, and on
any state where the id is absent every subsequent `process_guess` or
`set_target_number` call fails with an error while `end_game` succeeds as
a no-op. -/
theorem c1_trichotomy {s : GMState} {game_id : String} {game : Game}
    {g t now : Int}
    (hid : game_id ≠ "")
    (hget : dictGet s.active_games game_id = some game)
    (hfresh : tdSeconds (now - game.start_time) ≤ SESSION_TIMEOUT)
    (ht : game.target = some t)
    (hlo : game.range.1 ≤ g) (hhi : g ≤ game.range.2)
    (hl : s.lock = false)
    (hd : game.mode = "single" → game.difficulty.isSome = true) :
    (g = t →
      (process_guess s game_id (.int g) now true).1 =
        .ok (.win (game.attempts + 1)
          ("Correct! The number was " ++ pyStr game.target)) ∧
      dictGet (process_guess s game_id (.int g) now true).2.active_games
        game_id = none) ∧
    (g ≠ t → game.max_attempts ≤ game.attempts + 1 →
      (process_guess s game_id (.int g) now true).1 =
        .ok (handle_loss { game with attempts := game.attempts + 1 }) ∧
      dictGet (process_guess s game_id (.int g) now true).2.active_games
        game_id = none) ∧
    (g ≠ t → game.attempts + 1 < game.max_attempts →
      (process_guess s game_id (.int g) now true).1 =
        .ok (.cont (if g > t then "lower" else "higher") (game.attempts + 1)
          (game.max_attempts - (game.attempts + 1))) ∧
      dictGet (process_guess s game_id (.int g) now true).2.active_games
        game_id = some { game with attempts := game.attempts + 1 }) ∧
    (∀ s2 : GMState, dictGet s2.active_games game_id = none →
      (∀ guess2 now2 fsOk2,
        (process_guess s2 game_id guess2 now2 fsOk2).1.isErr = true) ∧
      (∀ number2, (set_target_number s2 game_id number2).1.isErr = true) ∧
      (s2.lock = false → (end_game s2 game_id).1 = .ok ())) := by
  refine ⟨?_, ?_, ?_, ?_⟩
  · intro hgt
    subst hgt
    exact ⟨(process_guess_win hid hget hfresh ht hlo hhi hl hd).1,
      (process_guess_win hid hget hfresh ht hlo hhi hl hd).2.1⟩
  · intro hne hmax
    exact process_guess_lose true hid hget hfresh hlo hhi
      (by simp [pyEqTarget, ht, hne]) hmax
  · intro hne hlt
    exact process_guess_cont true hid hget hfresh hlo hhi ht hne hlt
  · intro s2 habs
    refine ⟨fun guess2 now2 fsOk2 =>
        (process_guess_absent guess2 now2 fsOk2 habs).1,
      fun number2 => (set_target_number_absent number2 habs).1,
      fun hl2 => ?_⟩
    unfold end_game
    rw [if_neg (by simp [hl2])]

/-- C1 witness: the amended trichotomy instantiated on a concrete live
session with a wrong below-target guess, giving a continue outcome. -/
theorem c1_trichotomy_witness :
    (process_guess c1St "g" (.int 5) 0 true).1 = .ok (.cont "higher" 1 5) := by
  have h := @c1_trichotomy c1St "g" c1Sess 5 10 0 (by decide) (by decide)
    (by decide) (by decide) (by decide) (by decide) (by decide) (by decide)
  have h3 := (h.2.2.1 (by decide) (by decide)).1
  rw [h3]
  rfl

/-- C2: the claim is right and the code is wrong.  The timeout check uses
the Python timedelta `seconds` component, which wraps every 24 hours: a
guess on a session exactly 24 hours old (elapsed far beyond the 30-minute
timeout) is processed normally and the session survives, while a session
1801 seconds old is correctly expired and removed. -/
theorem c2_timeout_check_wraps :
    ((86400 : Int) - c2Sess.start_time > SESSION_TIMEOUT ∧
      (process_guess c2St "g" (.int 5) 86400 true).1 =
        .ok (.cont "higher" 1 5) ∧
      dictGet (process_guess c2St "g" (.int 5) 86400 true).2.active_games
        "g" = some { c2Sess with attempts := 1 }) ∧
    ((1801 : Int) - c2Sess.start_time > SESSION_TIMEOUT ∧
      (process_guess c2St "g" (.int 5) 1801 true).1 =
        .err (.gameError "Failed to process guess: Game session has expired") ∧
      dictGet (process_guess c2St "g" (.int 5) 1801 true).2.active_games
        "g" = none) := by
  decide

/-- C3 counterexample: a valid guess on a waiting-for-number multiplayer
session does fail with an error, but the incremented attempts counter is
observable in the registry afterwards — the partial mutation is not rolled
back. -/
theorem c3_partial_mutation_observable :
    (process_guess c3St "m" (.int 50) 0 true).1.isErr = true ∧
      dictGet (process_guess c3St "m" (.int 50) 0 true).2.active_games "m" =
        some { c3Sess with attempts := 1 } := by
  decide

/-- C3 (amended): on a multiplayer session still in `waiting_for_number`
(target unset), a valid in-range guess fails with an error — but only
after `attempts` has been incremented, and the increment stays observable;
moreover once the incremented attempts reach the budget the call instead
returns a lose outcome and removes the session. -/
theorem c3_waiting_guess {s : GMState} {game_id : String} {game : Game}
    {g now : Int} (fsOk : Bool)
    (hid : game_id ≠ "")
    (hget : dictGet s.active_games game_id = some game)
    (hfresh : tdSeconds (now - game.start_time) ≤ SESSION_TIMEOUT)
    (_hst : game.status = some "waiting_for_number")
    (ht : game.target = none)
    (hlo : game.range.1 ≤ g) (hhi : g ≤ game.range.2) :
    (game.attempts + 1 < game.max_attempts →
      (process_guess s game_id (.int g) now fsOk).1.isErr = true ∧
      dictGet (process_guess s game_id (.int g) now fsOk).2.active_games
        game_id = some { game with attempts := game.attempts + 1 }) ∧
    (game.max_attempts ≤ game.attempts + 1 →
      (process_guess s game_id (.int g) now fsOk).1 =
        .ok (handle_loss { game with attempts := game.attempts + 1 }) ∧
      dictGet (process_guess s game_id (.int g) now fsOk).2.active_games
        game_id = none) := by
  constructor
  · intro hlt
    exact process_guess_waiting fsOk hid hget hfresh hlo hhi ht hlt
  · intro hmax
    exact process_guess_lose fsOk hid hget hfresh hlo hhi
      (by simp [pyEqTarget, ht]) hmax

/-- C3 witness: the amended statement instantiated on a concrete waiting
multiplayer session. -/
theorem c3_waiting_guess_witness :
    (process_guess c3St "m" (.int 50) 0 true).1.isErr = true ∧
      dictGet (process_guess c3St "m" (.int 50) 0 true).2.active_games "m" =
        some { c3Sess with attempts := 1 } :=
  (@c3_waiting_guess c3St "m" c3Sess 50 0 true (by decide) (by decide)
    (by decide) (by decide) (by decide) (by decide) (by decide)).1 (by decide)

/-- C4 counterexample: on a winning single-mode guess whose score write
fails, `process_guess` does not return the win outcome — it raises an
error, so the gameplay outcome is lost to the persistence error. -/
theorem c4_win_lost_to_save_failure :
    isWin (process_guess c4St "g" (.int 7) 0 false).1 = false ∧
      (process_guess c4St "g" (.int 7) 0 false).1.isErr = true := by
  decide

/-- C4 (amended): if score persistence fails during a winning single-mode
guess, the failure is not absorbed: `process_guess` raises an error
instead of returning the win outcome, and the session stays in the
registry with its attempts counter incremented. -/
theorem c4_save_failure_error {s : GMState} {game_id : String} {game : Game}
    {t now : Int}
    (hid : game_id ≠ "")
    (hget : dictGet s.active_games game_id = some game)
    (hfresh : tdSeconds (now - game.start_time) ≤ SESSION_TIMEOUT)
    (ht : game.target = some t)
    (hlo : game.range.1 ≤ t) (hhi : t ≤ game.range.2)
    (hl : s.lock = false) (hm : game.mode = "single") :
    (process_guess s game_id (.int t) now false).1.isErr = true ∧
      isWin (process_guess s game_id (.int t) now false).1 = false ∧
      dictGet (process_guess s game_id (.int t) now false).2.active_games
        game_id = some { game with attempts := game.attempts + 1 } :=
  process_guess_winfail hid hget hfresh ht hlo hhi hl hm

/-- C4 witness: the amended statement instantiated on a concrete session
whose winning guess meets a failing score write. -/
theorem c4_save_failure_error_witness :
    (process_guess c4St "g" (.int 7) 0 false).1.isErr = true ∧
      isWin (process_guess c4St "g" (.int 7) 0 false).1 = false ∧
      dictGet (process_guess c4St "g" (.int 7) 0 false).2.active_games "g" =
        some { c4Sess with attempts := 1 } :=
  @c4_save_failure_error c4St "g" c4Sess 7 0 (by decide) (by decide)
    (by decide) (by decide) (by decide) (by decide) (by decide) (by decide)

/-- C5: on a live session, a guess that is not an integer or lies outside
the session's inclusive range makes `process_guess` fail with a
`GameError` and leaves the state — in particular the attempts counter —
completely unchanged: validation happens strictly before the increment. -/
theorem c5_validation_before_increment {s : GMState} {game_id : String}
    {game : Game} {now : Int} (guess : PyVal) (fsOk : Bool)
    (hid : game_id ≠ "")
    (hget : dictGet s.active_games game_id = some game)
    (hfresh : tdSeconds (now - game.start_time) ≤ SESSION_TIMEOUT)
    (hbad : ∀ n, guess = PyVal.int n → n < game.range.1 ∨ n > game.range.2) :
    (∃ m, (process_guess s game_id guess now fsOk).1 = .err (.gameError m)) ∧
      (process_guess s game_id guess now fsOk).2 = s :=
  process_guess_badguess guess fsOk hid hget hfresh hbad

/-- C5 witness: an out-of-range guess and a non-integer guess on a
concrete live session both rejected without any state change. -/
theorem c5_validation_before_increment_witness :
    ((∃ m, (process_guess c5St "g" (.int 500) 0 true).1 =
        .err (.gameError m)) ∧
      (process_guess c5St "g" (.int 500) 0 true).2 = c5St) ∧
    ((∃ m, (process_guess c5St "g" .nonInt 0 true).1 =
        .err (.gameError m)) ∧
      (process_guess c5St "g" .nonInt 0 true).2 = c5St) :=
  ⟨@c5_validation_before_increment c5St "g" c5Sess 0 (.int 500) true
      (by decide) (by decide) (by decide) (by intro n hn; cases hn; decide),
    @c5_validation_before_increment c5St "g" c5Sess 0 .nonInt true
      (by decide) (by decide) (by decide) (by intro n hn; cases hn)⟩

/-- C6: the score store's put is asymmetric by mode.  Single mode
overwrites only when the key is absent or the new value is strictly
smaller (minimum retained: put 5 then put 7 leaves 5); multi mode
unconditionally overwrites (put 5 then put 7 leaves 7). -/
theorem c6_put_asymmetry {s : GMState} (hl : s.lock = false)
    (key : String) (v : Int) :
    (dictGet (save_score s "single" key v true).2.single_scores key =
      some (match dictGet s.single_scores key with
        | none => v
        | some old => if v < old then v else old)) ∧
    (dictGet (save_score s "multi" key v true).2.multi_scores key = some v) ∧
    (dictGet s.single_scores key = none →
      dictGet (save_score (save_score s "single" key 5 true).2 "single" key 7
        true).2.single_scores key = some 5) ∧
    (dictGet (save_score (save_score s "multi" key 5 true).2 "multi" key 7
      true).2.multi_scores key = some 7) := by
  have hone : ∀ (v1 : Int), (save_score s "single" key v1 true).2 =
      { s with single_scores :=
          match dictGet s.single_scores key with
          | none => dictSet s.single_scores key v1
          | some old =>
            if v1 < old then dictSet s.single_scores key v1
            else s.single_scores } := by
    intro v1
    unfold save_score
    rw [if_neg (by simp [hl])]
    cases hk : dictGet s.single_scores key <;> simp [hk]
  have hmul : ∀ (v1 : Int), (save_score s "multi" key v1 true).2 =
      { s with multi_scores := dictSet s.multi_scores key v1 } := by
    intro v1
    unfold save_score
    rw [if_neg (by simp [hl])]
    simp
  refine ⟨?_, ?_, ?_, ?_⟩
  · rw [hone v]
    cases hk : dictGet s.single_scores key with
    | none => simp [dictGet_dictSet]
    | some old =>
      by_cases hvo : v < old
      · simp [hvo, dictGet_dictSet]
      · simp [hvo, hk]
  · rw [hmul v]
    simp [dictGet_dictSet]
  · intro habs
    rw [hone 5, habs]
    unfold save_score
    rw [if_neg (by simp [hl])]
    have hget5 : dictGet (dictSet s.single_scores key 5) key = some 5 := by
      simp [dictGet_dictSet]
    simp [hget5, dictGet_dictSet]
  · rw [hmul 5]
    rw [show (save_score { s with multi_scores := dictSet s.multi_scores key 5 }
        "multi" key 7 true).2 =
      { s with multi_scores := dictSet (dictSet s.multi_scores key 5) key 7 } by
        unfold save_score
        rw [if_neg (by simp [hl])]
        simp]
    simp [dictGet_dictSet]

/-- C6 witness: the asymmetry instantiated on the fresh store. -/
theorem c6_put_asymmetry_witness :
    dictGet (save_score initState "single" "easy" 3 true).2.single_scores
      "easy" = some 3 ∧
    dictGet (save_score initState "multi" "k" 3 true).2.multi_scores "k" =
      some 3 ∧
    dictGet (save_score (save_score initState "single" "easy" 5
      true).2 "single" "easy" 7 true).2.single_scores "easy" = some 5 ∧
    dictGet (save_score (save_score initState "multi" "k" 5 true).2 "multi"
      "k" 7 true).2.multi_scores "k" = some 7 := by
  have h3 := @c6_put_asymmetry initState rfl "easy" 3
  have h3m := @c6_put_asymmetry initState rfl "k" 3
  have h5 := @c6_put_asymmetry initState rfl "easy" 5
  have h5m := @c6_put_asymmetry initState rfl "k" 5
  exact ⟨h3.1, h3m.2.1, h5.2.2.1 (by decide), h5m.2.2.2⟩

/-- C7: the claim is right and the code is wrong, twice over.  First, the
sweep's staleness test uses the timedelta `seconds` component, which wraps
at 24 hours: after a sweep at time 86400 a session created at time 0 — far
older than the 30-minute timeout — is still present (the sweep completes
and re-arms its timer).  Second, on a session whose wrapped idle seconds do
exceed the timeout the sweep deadlocks: it calls `end_game`, which
re-acquires the non-reentrant lock the sweep already holds, so the sweep
never completes, never removes the session and never reschedules itself. -/
theorem c7_sweep_wraps_and_deadlocks :
    ((86400 : Int) - c7Sess.start_time > SESSION_TIMEOUT ∧
      (cleanup_expired_sessions c7St 86400).1 = .ok () ∧
      dictGet (cleanup_expired_sessions c7St 86400).2.active_games "g" =
        some c7Sess ∧
      (cleanup_expired_sessions c7St 86400).2.timerArmed = true) ∧
    ((1860 : Int) - c7Sess.start_time > SESSION_TIMEOUT ∧
      (cleanup_expired_sessions c7St 1860).1 = .blocked) := by
  decide

/-- C8: on a multiplayer session in `waiting_for_number`,
`set_target_number` with an in-range number stores the target, moves the
status to `in_progress` exactly once (a second call then fails) and resets
attempts to 0; with an out-of-range number it fails and leaves the whole
session table unchanged. -/
theorem c8_set_target_once {s : GMState} {game_id : String} {game : Game}
    {n : Int}
    (hget : dictGet s.active_games game_id = some game)
    (hst : game.status = some "waiting_for_number") :
    (game.range.1 ≤ n ∧ n ≤ game.range.2 →
      (set_target_number s game_id (.int n)).1 = .ok () ∧
      dictGet (set_target_number s game_id (.int n)).2.active_games game_id =
        some { game with
               target := some n, status := some "in_progress",
               attempts := 0 } ∧
      ∀ number2,
        (set_target_number (set_target_number s game_id (.int n)).2 game_id
          number2).1.isErr = true) ∧
    ((n < game.range.1 ∨ n > game.range.2) →
      (set_target_number s game_id (.int n)).1.isErr = true ∧
      (set_target_number s game_id (.int n)).2 = s) := by
  unfold set_target_number validate_game_id validate_number_range
  rw [hget]
  dsimp only
  rw [hst]
  dsimp only
  rw [if_neg (by simp)]
  constructor
  · rintro ⟨h1, h2⟩
    rw [if_neg (by push_neg; exact ⟨h1, h2⟩)]
    dsimp only
    refine ⟨rfl, by simp [dictGet_dictSet], ?_⟩
    intro number2
    have hget2 : dictGet (dictSet s.active_games game_id
        { game with
          target := some n, status := some "in_progress",
          attempts := 0 }) game_id =
        some { game with
          target := some n, status := some "in_progress",
          attempts := 0 } := by
      simp [dictGet_dictSet]
    rw [hget2]
    dsimp only
    rw [if_pos (by simp)]
    rfl
  · intro hviol
    rw [if_pos hviol]
    exact ⟨rfl, rfl⟩

/-- C8 witness: the set-target contract instantiated on a concrete waiting
multiplayer session with the in-range number 42. -/
theorem c8_set_target_once_witness :
    (set_target_number c8St "m" (.int 42)).1 = .ok () ∧
      dictGet (set_target_number c8St "m" (.int 42)).2.active_games "m" =
        some { c8Sess with
               target := some 42, status := some "in_progress",
               attempts := 0 } ∧
      (set_target_number (set_target_number c8St "m" (.int 42)).2 "m"
        (.int 9)).1.isErr = true := by
  have h := (@c8_set_target_once c8St "m" c8Sess 42 (by decide)
    (by decide)).1 (by decide)
  exact ⟨h.1, h.2.1, h.2.2 (.int 9)⟩

/-- C9 counterexample: the invariant `attempts ≤ max_attempts` fails on a
state reachable by the listed operations.  After `create_single("easy")`
and seven winning guesses whose score writes all fail, the session is
still registered with seven attempts against a budget of six (each failed
write raises after the increment but before removal). -/
theorem c9_attempts_exceed_budget :
    Reachable true c9State ∧
      dictGet c9State.active_games "g" = some c9Game ∧
      ¬(c9Game.attempts ≤ c9Game.max_attempts) := by
  refine ⟨?_, by decide, by decide⟩
  have h0 : Reachable true initState := Reachable.init
  have h1 : Reachable true c9Start :=
    h0.step (Step.create_single initState "easy" none "g" 30 0
      (fun r hr => by injection hr with h2; rw [← h2]; decide) (by decide))
  have h2 : Reachable true (c9Fail c9Start) :=
    h1.step (Step.guess c9Start "g" (.int 30) 0 false (Or.inl rfl)
      (by decide))
  have h3 : Reachable true (c9Fail (c9Fail c9Start)) :=
    h2.step (Step.guess (c9Fail c9Start) "g" (.int 30) 0 false (Or.inl rfl)
      (by decide))
  have h4 : Reachable true (c9Fail (c9Fail (c9Fail c9Start))) :=
    h3.step (Step.guess (c9Fail (c9Fail c9Start)) "g" (.int 30) 0 false
      (Or.inl rfl) (by decide))
  have h5 : Reachable true (c9Fail (c9Fail (c9Fail (c9Fail c9Start)))) :=
    h4.step (Step.guess (c9Fail (c9Fail (c9Fail c9Start))) "g" (.int 30) 0
      false (Or.inl rfl) (by decide))
  have h6 : Reachable true
      (c9Fail (c9Fail (c9Fail (c9Fail (c9Fail c9Start))))) :=
    h5.step (Step.guess (c9Fail (c9Fail (c9Fail (c9Fail c9Start)))) "g"
      (.int 30) 0 false (Or.inl rfl) (by decide))
  have h7 : Reachable true
      (c9Fail (c9Fail (c9Fail (c9Fail (c9Fail (c9Fail c9Start)))))) :=
    h6.step (Step.guess (c9Fail (c9Fail (c9Fail (c9Fail (c9Fail c9Start)))))
      "g" (.int 30) 0 false (Or.inl rfl) (by decide))
  exact h7.step (Step.guess
    (c9Fail (c9Fail (c9Fail (c9Fail (c9Fail (c9Fail c9Start)))))) "g"
    (.int 30) 0 false (Or.inl rfl) (by decide))

/-- C9 (amended): over completed calls in which every score write succeeds,
all operations preserve the session invariants: every registered session
has `attempts ≤ max_attempts`, and its target, when set, lies within the
inclusive range. -/
theorem c9_invariant {s : GMState} (h : Reachable false s) : StateWF s :=
  fun gid g hget => ((reachable_stateInv h).1 gid g hget).1

/-- C9 witness: the invariant theorem applied to the freshly constructed
registry. -/
theorem c9_invariant_witness :
    Reachable false initState ∧ StateWF initState :=
  ⟨Reachable.init, c9_invariant Reachable.init⟩

/-- C10 counterexample: with the process-wide lock held by another thread,
`process_guess` and `set_target_number` both complete and mutate the
session table instead of waiting — their read-modify-write sequences never
acquire the lock, so not every mutating operation is serialized by it. -/
theorem c10_mutation_without_lock :
    c10St.lock = true ∧
      (process_guess c10St "g" (.int 2) 0 true).1 = .ok (.cont "higher" 1 5) ∧
      dictGet (process_guess c10St "g" (.int 2) 0 true).2.active_games "g" =
        some { c10Sess with attempts := 1 } ∧
      (set_target_number c10MSt "m" (.int 42)).1 = .ok () ∧
      dictGet (set_target_number c10MSt "m" (.int 42)).2.active_games "m" =
        some { c10MSess with
               target := some 42, status := some "in_progress",
               attempts := 0 } := by
  decide

/-- C10 (amended): only `end_game`, the expiry sweep, the score-store write
and the insert step of the two create operations acquire the process-wide
lock (with the lock held elsewhere they block); `set_target_number` and
`process_guess` perform their session read-modify-write without acquiring
it, as witnessed by both completing and mutating under a held lock. -/
theorem c10_partial_locking :
    (∀ (s : GMState) (game_id : String), s.lock = true →
      (end_game s game_id).1 = .blocked) ∧
    (∀ (s : GMState) (now : Int), s.lock = true →
      (cleanup_expired_sessions s now).1 = .blocked) ∧
    (∀ (s : GMState) (game_id : String) (target now : Int), s.lock = true →
      (start_singleplayer s "easy" none game_id target now).1 = .blocked) ∧
    (∀ (s : GMState) (game_id : String) (now : Int), s.lock = true →
      (start_multiplayer s "alice" "bob" game_id now).1 = .blocked) ∧
    (∀ (s : GMState) (mode key : String) (v : Int) (fsOk : Bool),
      s.lock = true → (save_score s mode key v fsOk).1 = .blocked) ∧
    (process_guess c10St "g" (.int 2) 0 true).1 = .ok (.cont "higher" 1 5) ∧
    (set_target_number c10MSt "m" (.int 42)).1 = .ok () := by
  refine ⟨?_, ?_, ?_, ?_, ?_, by decide, by decide⟩
  · intro s game_id hl
    unfold end_game
    rw [if_pos hl]
  · intro s now hl
    unfold cleanup_expired_sessions
    rw [if_pos hl]
  · intro s game_id target now hl
    unfold start_singleplayer
    simp [resolve_range, RANGES, hl]
  · intro s game_id now hl
    unfold start_multiplayer
    rw [if_neg (by simp), if_neg (by simp)]
    dsimp only
    rw [if_pos hl]
  · intro s mode key v fsOk hl
    unfold save_score
    rw [if_pos hl]

/-- C10 witness: the lock-acquiring operations blocked under the concrete
held-lock registry. -/
theorem c10_partial_locking_witness :
    (end_game c10St "g").1 = .blocked ∧
      (cleanup_expired_sessions c10St 0).1 = .blocked ∧
      (save_score c10St "single" "easy" 3 true).1 = .blocked :=
  ⟨c10_partial_locking.1 c10St "g" rfl,
    c10_partial_locking.2.1 c10St 0 rfl,
    c10_partial_locking.2.2.2.2.1 c10St "single" "easy" 3 true rfl⟩

end GuessMaster
